import Mathlib

/-!
Shallow embedding of the myinstagram API route handlers and client toggle
handlers, together with proofs of the behavioural claims about them.

The database (Supabase tables `users`, `posts`, `comments`, `likes`,
`bookmarks`, `follows` and the `post_stats` view) is modelled as explicit
lists of rows; every handler is a pure function from its inputs and the
database state to a status code plus the new state.  Query outcomes that
the handlers branch on (count-query failure, search-query failure, insert
failure, upload failure) are threaded as explicit boolean inputs.
-/

namespace MyInstagram

/-- A row of the `users` table: internal id, Clerk (external) id, display
name, creation timestamp. -/
structure UserRow where
  id : String
  clerk_id : String
  name : String
  created_at : Nat
deriving DecidableEq, Repr

/-- A row of the `posts` table. -/
structure PostRow where
  id : String
  user_id : String
  image_url : String
deriving DecidableEq, Repr

/-- A row of the `post_stats` view: post columns plus precomputed counts. -/
structure PostStatRow where
  post_id : String
  user_id : String
  image_url : String
  caption : String
  created_at : Nat
  likes_count : Nat
  comments_count : Nat
deriving DecidableEq, Repr

/-- A row of the `comments` table. -/
structure CommentRow where
  id : String
  post_id : String
  user_id : String
  content : String
  created_at : Nat
deriving DecidableEq, Repr

/-- A row of the `likes` or `bookmarks` table (the id column is immaterial
to the handlers, which only ever match on the (post, user) pair). -/
structure RelRow where
  post_id : String
  user_id : String
deriving DecidableEq, Repr

/-- A row of the `follows` table. -/
structure FollowRow where
  follower_id : String
  following_id : String
deriving DecidableEq, Repr

/-- The relational backend state. -/
structure Db where
  users : List UserRow
  posts : List PostRow
  post_stats : List PostStatRow
  comments : List CommentRow
  likes : List RelRow
  bookmarks : List RelRow
  follows : List FollowRow
deriving DecidableEq, Repr

/-- `.from("users").select("id").eq("clerk_id", cid).single()` -/
def findUserByClerkId (db : Db) (cid : String) : Option UserRow :=
  db.users.find? (fun u => u.clerk_id == cid)

/-- `.from("users").select(...).eq("id", uid).single()` -/
def findUserById (db : Db) (uid : String) : Option UserRow :=
  db.users.find? (fun u => u.id == uid)

/-- Existence check on a likes/bookmarks table for a (post, user) pair:
`.select("id").eq("post_id", pid).eq("user_id", uid).maybeSingle()`. -/
def relExists (rows : List RelRow) (pid uid : String) : Bool :=
  rows.any (fun r => r.post_id == pid && r.user_id == uid)

/-- Existence check on the follows table for a (follower, following) pair. -/
def followExists (rows : List FollowRow) (fer fee : String) : Bool :=
  rows.any (fun r => r.follower_id == fer && r.following_id == fee)

/-- The (post, user) key of a likes/bookmarks row. -/
def relKey (r : RelRow) : String × String := (r.post_id, r.user_id)

/-- The (follower, following) key of a follows row. -/
def followKey (r : FollowRow) : String × String := (r.follower_id, r.following_id)

/-- At-most-one-row-per-(post, user)-pair invariant on likes/bookmarks. -/
def relUnique (rows : List RelRow) : Prop := (rows.map relKey).Nodup

/-- At-most-one-row-per-(follower, following)-pair invariant on follows. -/
def followUnique (rows : List FollowRow) : Prop := (rows.map followKey).Nodup

instance (rows : List RelRow) : Decidable (relUnique rows) := by
  unfold relUnique; infer_instance

instance (rows : List FollowRow) : Decidable (followUnique rows) := by
  unfold followUnique; infer_instance

/-- POST /api/likes (src/app/api/likes/route.ts): auth check, body check,
caller resolution, duplicate check returning 409, insert otherwise. -/
def likesPOST (clerkAuth : Option String) (post_id : Option String) (db : Db) :
    Nat × Db :=
  match clerkAuth with
  | none => (401, db)
  | some cid =>
    match post_id with
    | none => (400, db)
    | some pid =>
      match findUserByClerkId db cid with
      | none => (404, db)
      | some u =>
        if relExists db.likes pid u.id then (409, db)
        else (200, { db with likes := db.likes ++ [⟨pid, u.id⟩] })

/-- POST /api/bookmarks, older revision (check-then-409, identical in shape
to the likes endpoint but against the bookmarks table). -/
def bookmarksPOSTLegacy (clerkAuth : Option String) (post_id : Option String)
    (db : Db) : Nat × Db :=
  match clerkAuth with
  | none => (401, db)
  | some cid =>
    match post_id with
    | none => (400, db)
    | some pid =>
      match findUserByClerkId db cid with
      | none => (404, db)
      | some u =>
        if relExists db.bookmarks pid u.id then (409, db)
        else (200, { db with bookmarks := db.bookmarks ++ [⟨pid, u.id⟩] })

/-- POST /api/bookmarks, revised upsert form: `.upsert({post_id, user_id},
onConflict post_id,user_id with ignoreDuplicates)` — a duplicate request is
absorbed as a 200 no-op.  A failing `.single()` caller lookup (no row)
surfaces as userError and hence 500 in this revision. -/
def bookmarksPOSTUpsert (clerkAuth : Option String) (post_id : Option String)
    (db : Db) : Nat × Db :=
  match clerkAuth with
  | none => (401, db)
  | some cid =>
    match post_id with
    | none => (400, db)
    | some pid =>
      match findUserByClerkId db cid with
      | none => (500, db)
      | some u =>
        if relExists db.bookmarks pid u.id then (200, db)
        else (200, { db with bookmarks := db.bookmarks ++ [⟨pid, u.id⟩] })

/-- POST /api/follows: auth, body, caller resolution, self-follow check
(400), target existence check (404), duplicate check (409), insert + 201. -/
def followsPOST (clerkAuth : Option String) (following_id : Option String)
    (db : Db) : Nat × Db :=
  match clerkAuth with
  | none => (401, db)
  | some cid =>
    match following_id with
    | none => (400, db)
    | some fid =>
      match findUserByClerkId db cid with
      | none => (404, db)
      | some u =>
        if u.id == fid then (400, db)
        else
          match findUserById db fid with
          | none => (404, db)
          | some _ =>
            if followExists db.follows u.id fid then (409, db)
            else (201, { db with follows := db.follows ++ [⟨u.id, fid⟩] })

/-- Local UI state of one boolean interaction flag plus its counter. -/
structure ToggleState where
  flag : Bool
  count : Int
deriving DecidableEq, Repr

/-- Observable outcome of one click-handler run: whether a network request
was issued, the local state at the moment the request was issued, the final
local state, and whether an alert dialog was shown. -/
structure ClickResult where
  fetched : Bool
  stateAtFetch : ToggleState
  finalState : ToggleState
  alerted : Bool
deriving DecidableEq, Repr

/-- `response.ok`: status in the 2xx range. -/
def respOk (status : Nat) : Bool := 200 ≤ status && status < 300

/-- The optimistic flip `newFlag = !flag; newCount = newFlag ? count + 1 :
count - 1` shared by the follow and like togglers. -/
def flipToggle (s : ToggleState) : ToggleState :=
  ⟨!s.flag, if s.flag then s.count - 1 else s.count + 1⟩

/-- handleFollowClick (src/components/profile/ProfileHeader.tsx): loading
guard, own-profile guard, optimistic flip of isFollowing/followersCount
before the fetch, rollback plus alert on any non-ok response (including
409, which reaches the generic !response.ok branch). -/
def followClick (isLoading isOwnProfile : Bool) (s : ToggleState)
    (respStatus : Nat) : ClickResult :=
  if isLoading then ⟨false, s, s, false⟩
  else if isOwnProfile then ⟨false, s, s, false⟩
  else
    let flipped := flipToggle s
    if respOk respStatus then ⟨true, flipped, flipped, false⟩
    else ⟨true, flipped, s, true⟩

/-- handleLikeClick (revised PostCard, src/unnamed/part_002): loading guard;
the fetch is issued with the local state unchanged; a 409 response is
reconciled (flag forced true, count bumped to 1 only if it was 0) with no
alert; a 2xx response flips flag and counter; any other response leaves the
state unchanged and alerts. -/
def likeClick (isLoading : Bool) (s : ToggleState) (respStatus : Nat) :
    ClickResult :=
  if isLoading then ⟨false, s, s, false⟩
  else if respStatus = 409 then
    if s.flag then ⟨true, s, s, false⟩
    else ⟨true, s, ⟨true, if s.count = 0 then 1 else s.count⟩, false⟩
  else if respOk respStatus then
    ⟨true, s, flipToggle s, false⟩
  else ⟨true, s, s, true⟩

/-- handleBookmarkClick (src/unnamed/part_002): loading guard; the fetch is
issued with the local state unchanged; a 2xx response flips the flag (no
counter is kept for bookmarks); every non-ok response, 409 included, leaves
the state unchanged and alerts. -/
def bookmarkClick (isLoading : Bool) (s : ToggleState) (respStatus : Nat) :
    ClickResult :=
  if isLoading then ⟨false, s, s, false⟩
  else if respOk respStatus then ⟨true, s, ⟨!s.flag, s.count⟩, false⟩
  else ⟨true, s, s, true⟩

/-- An uploaded multipart image file: name, byte size, MIME type. -/
structure ImageFile where
  name : String
  size : Nat
  mime : String
deriving DecidableEq, Repr

/-- Outcome of POST /api/posts: status code, final object-storage contents
(set of object paths), final posts table. -/
structure CreatePostResult where
  status : Nat
  storage : List String
  posts : List PostRow
deriving DecidableEq, Repr

/-- The MIME allow-list of POST /api/posts (src/app/api/posts/route.ts). -/
def allowedTypes : List String :=
  ["image/jpeg", "image/jpg", "image/png", "image/webp", "image/gif"]

/-- The characters after the last '.' of a file name (the whole name when
it has no dot) — what `name.split(".").pop()` yields. -/
def lastExtChars (l : List Char) : List Char :=
  if l.contains '.' then (l.reverse.takeWhile (fun c => !(c == '.'))).reverse else l

/-- `imageFile.name.split(".").pop() || "jpg"` -/
def fileExtOf (name : String) : String :=
  let e : String := ⟨lastExtChars name.data⟩
  if e = "" then "jpg" else e

/-- The storage key `{clerkUserId}/{timestamp}-{random}.{ext}`. -/
def uploadPath (cid : String) (timestamp : Nat) (randomStr : String)
    (imageName : String) : String :=
  cid ++ "/" ++ toString timestamp ++ "-" ++ randomStr ++ "." ++ fileExtOf imageName

/-- POST /api/posts (src/app/api/posts/route.ts): auth, image presence,
size limit (5MB), MIME allow-list, caption length limit (2200), caller
resolution, storage upload (upsert:false, so an occupied path fails), post
insert; when the insert fails the uploaded object is removed again before
the 500 is returned. -/
def postsPOST (clerkAuth : Option String) (image : Option ImageFile)
    (caption : String) (timestamp : Nat) (randomStr : String)
    (uploadFails insertFails : Bool) (storage : List String) (db : Db) :
    CreatePostResult :=
  match clerkAuth with
  | none => ⟨401, storage, db.posts⟩
  | some cid =>
    match image with
    | none => ⟨400, storage, db.posts⟩
    | some f =>
      if f.size > 5 * 1024 * 1024 then ⟨400, storage, db.posts⟩
      else if !(allowedTypes.contains f.mime) then ⟨400, storage, db.posts⟩
      else if caption.length > 2200 then ⟨400, storage, db.posts⟩
      else
        match findUserByClerkId db cid with
        | none => ⟨404, storage, db.posts⟩
        | some u =>
          let filePath := uploadPath cid timestamp randomStr f.name
          if uploadFails || storage.contains filePath then ⟨500, storage, db.posts⟩
          else
            let storage1 := storage ++ [filePath]
            if insertFails then
              ⟨500, storage1.filter (fun p => !(p == filePath)), db.posts⟩
            else
              ⟨200, storage1, db.posts ++ [⟨"generated-id", u.id, "public/" ++ filePath⟩]⟩

/-- Outcome of DELETE /api/posts/[postId]: status, final storage, final db
(the cascade removes dependent comments/likes/bookmarks of the post). -/
structure DeletePostResult where
  status : Nat
  storage : List String
  db : Db
deriving DecidableEq, Repr

/-- DELETE /api/posts/[postId] (src/unnamed/part_000): auth, caller
resolution, post lookup (404), ownership check (403), best-effort storage
removal, row deletion with database-side cascade. -/
def postDELETE (clerkAuth : Option String) (postId : String)
    (storage : List String) (db : Db) : DeletePostResult :=
  match clerkAuth with
  | none => ⟨401, storage, db⟩
  | some cid =>
    match findUserByClerkId db cid with
    | none => ⟨404, storage, db⟩
    | some u =>
      match db.posts.find? (fun p => p.id == postId) with
      | none => ⟨404, storage, db⟩
      | some post =>
        if post.user_id != u.id then ⟨403, storage, db⟩
        else
          let storage1 :=
            match post.image_url.splitOn "/uploads/" with
            | _ :: fp :: _ => storage.filter (fun p => !(p == fp))
            | _ => storage
          let db1 : Db :=
            { db with
              posts := db.posts.filter (fun p => !(p.id == postId)),
              comments := db.comments.filter (fun c => !(c.post_id == postId)),
              likes := db.likes.filter (fun l => !(l.post_id == postId)),
              bookmarks := db.bookmarks.filter (fun b => !(b.post_id == postId)) }
          ⟨200, storage1, db1⟩

/-- DELETE /api/comments (src/unnamed/part_025): auth, body check, caller
resolution, comment lookup (404), author check (403), deletion. -/
def commentsDELETE (clerkAuth : Option String) (comment_id : Option String)
    (db : Db) : Nat × Db :=
  match clerkAuth with
  | none => (401, db)
  | some cid =>
    match comment_id with
    | none => (400, db)
    | some cmid =>
      match findUserByClerkId db cid with
      | none => (404, db)
      | some u =>
        match db.comments.find? (fun c => c.id == cmid) with
        | none => (404, db)
        | some c =>
          if c.user_id != u.id then (403, db)
          else (200, { db with comments := db.comments.filter (fun x => !(x.id == cmid)) })

/-- Insert one post_stats row into a list sorted by created_at descending. -/
def insertStatDesc (p : PostStatRow) : List PostStatRow → List PostStatRow
  | [] => [p]
  | q :: qs => if q.created_at ≤ p.created_at then p :: q :: qs else q :: insertStatDesc p qs

/-- `.order("created_at", { ascending: false })` on post_stats. -/
def sortStatsDesc (l : List PostStatRow) : List PostStatRow :=
  l.foldr insertStatDesc []

/-- Insert one comment row into a list sorted by created_at descending. -/
def insertCommentDesc (c : CommentRow) : List CommentRow → List CommentRow
  | [] => [c]
  | q :: qs => if q.created_at ≤ c.created_at then c :: q :: qs else q :: insertCommentDesc c qs

/-- `.order("created_at", { ascending: false })` on comments. -/
def sortCommentsDesc (l : List CommentRow) : List CommentRow :=
  l.foldr insertCommentDesc []

/-- One assembled feed entry: stats row joined with its author, the top-2
comment preview (each with its author), and the viewer's flags. -/
structure FeedPost where
  stat : PostStatRow
  author : UserRow
  previewComments : List (CommentRow × UserRow)
  user_liked : Bool
  user_bookmarked : Bool
deriving DecidableEq, Repr

/-- The pagination block of the feed response. -/
structure Pagination where
  page : Int
  limit : Int
  total : Nat
  hasMore : Bool
deriving DecidableEq, Repr

/-- The feed response: status plus body fields. -/
structure FeedResult where
  status : Nat
  posts : List FeedPost
  pagination : Pagination
deriving DecidableEq, Repr

/-- `Math.min(parseInt(limit or "10"), 50)` — the effective page size. -/
def effLimit (limitRaw : Int) : Int := min limitRaw 50

/-- `offset = (page - 1) * limit` with the clamped limit. -/
def feedOffset (pageRaw limitRaw : Int) : Int := (pageRaw - 1) * effLimit limitRaw

/-- Join one stats row with author, top-2 comment preview (a preview comment
whose author is unresolvable is silently dropped) and viewer flags.  A
missing post author makes the whole assembly throw (→ 500). -/
def assemblePost (db : Db) (userLikes userBookmarks : List String)
    (p : PostStatRow) : Option FeedPost :=
  match findUserById db p.user_id with
  | none => none
  | some u =>
    let postComments :=
      (sortCommentsDesc (db.comments.filter (fun c => c.post_id == p.post_id))).take 2
    let withUsers := postComments.filterMap
      (fun c => (findUserById db c.user_id).map (fun cu => (c, cu)))
    some { stat := p, author := u, previewComments := withUsers,
           user_liked := userLikes.contains p.post_id,
           user_bookmarked := userBookmarks.contains p.post_id }

/-- The post_stats query's optional `.eq("user_id", userId)` filter. -/
def feedFiltered (userIdFilter : Option String) (db : Db) : List PostStatRow :=
  match userIdFilter with
  | some uid => db.post_stats.filter (fun p => p.user_id == uid)
  | none => db.post_stats

/-- Sequentially assemble every page row; the first row whose author is
missing makes the whole map throw (`User not found for post ...`). -/
def assembleAll (db : Db) (userLikes userBookmarks : List String) :
    List PostStatRow → Option (List FeedPost)
  | [] => some []
  | p :: ps =>
    match assemblePost db userLikes userBookmarks p with
    | none => none
    | some fp =>
      match assembleAll db userLikes userBookmarks ps with
      | none => none
      | some rest => some (fp :: rest)

/-- `.range(offset, offset + limit - 1)` over the ordered, filtered
post_stats view: drop `offset` rows, take `limit` rows. -/
def feedPageRows (pageRaw limitRaw : Int) (userIdFilter : Option String)
    (db : Db) : List PostStatRow :=
  ((sortStatsDesc (feedFiltered userIdFilter db)).drop
    (feedOffset pageRaw limitRaw).toNat).take (effLimit limitRaw).toNat

/-- The viewer's like rows restricted to the page's post ids. -/
def viewerLikes (db : Db) (viewerUser : Option UserRow)
    (postIds : List String) : List String :=
  match viewerUser with
  | some vu =>
    (db.likes.filter (fun l => l.user_id == vu.id && postIds.contains l.post_id)).map (·.post_id)
  | none => []

/-- The viewer's bookmark rows restricted to the page's post ids. -/
def viewerBookmarks (db : Db) (viewerUser : Option UserRow)
    (postIds : List String) : List String :=
  match viewerUser with
  | some vu =>
    (db.bookmarks.filter (fun b => b.user_id == vu.id && postIds.contains b.post_id)).map (·.post_id)
  | none => []

/-- Steps 2–6 of the feed pipeline on the fetched page rows. -/
def feedAssembled (pageRaw limitRaw : Int) (userIdFilter : Option String)
    (viewer : Option String) (db : Db) : Option (List FeedPost) :=
  let pageRows := feedPageRows pageRaw limitRaw userIdFilter db
  let postIds := pageRows.map (·.post_id)
  let viewerUser := viewer.bind (findUserByClerkId db)
  assembleAll db (viewerLikes db viewerUser postIds)
    (viewerBookmarks db viewerUser postIds) pageRows

/-- GET /api/posts (src/app/api/posts/route.ts).  `pageRaw`/`limitRaw` are
the already-parsed integer query parameters, `userIdFilter` the optional
userId filter, `viewer` the Clerk id of an authenticated viewer, and
`countFails` tells whether the final total-count query errors (the code
logs that error and falls back to `count || 0`). -/
def feedGET (pageRaw limitRaw : Int) (userIdFilter : Option String)
    (viewer : Option String) (countFails : Bool) (db : Db) : FeedResult :=
  let limitc := effLimit limitRaw
  let offset := feedOffset pageRaw limitRaw
  let pageRows := feedPageRows pageRaw limitRaw userIdFilter db
  if pageRows.isEmpty then
    { status := 200, posts := [],
      pagination := { page := pageRaw, limit := limitc, total := 0, hasMore := false } }
  else
    match feedAssembled pageRaw limitRaw userIdFilter viewer db with
    | none =>
      { status := 500, posts := [],
        pagination := { page := pageRaw, limit := limitc, total := 0, hasMore := false } }
    | some assembled =>
      let total := if countFails then 0 else (feedFiltered userIdFilter db).length
      { status := 200, posts := assembled,
        pagination := { page := pageRaw, limit := limitc, total := total,
                        hasMore := decide (offset + limitc < (total : Int)) } }

/-- Minimal JSON value model for response bodies. -/
inductive Json where
  | jstr : String → Json
  | jnum : Int → Json
  | jarr : List Json → Json
  | jobj : List (String × Json) → Json
deriving Repr

/-- The top-level keys of a JSON object (used to separate bodies). -/
def jsonKeys : Json → List String
  | .jobj l => l.map Prod.fst
  | _ => []

/-- Field lookup in a JSON object. -/
def jsonField (j : Json) (k : String) : Option Json :=
  match j with
  | .jobj l => (l.find? (fun p => p.fst == k)).map Prod.snd
  | _ => none

/-- Field lookup under the `results` object of a search response body. -/
def resultsField (j : Json) (k : String) : Option Json :=
  match jsonField j "results" with
  | some r => jsonField r k
  | none => none

/-- ASCII whitespace as stripped by `query.trim()`. -/
def isWsChar (c : Char) : Bool :=
  c == ' ' || c == '\t' || c == '\n' || c == '\r'

/-- `query.trim()` (structural implementation over the character list). -/
def jsTrim (s : String) : String :=
  ⟨((s.data.dropWhile isWsChar).reverse.dropWhile isWsChar).reverse⟩

/-- ASCII lower-casing of a single character. -/
def lowerChar (c : Char) : Char :=
  if 'A' ≤ c && c ≤ 'Z' then Char.ofNat (c.toNat + 32) else c

/-- Is `pat` a prefix of `hay`? -/
def listIsPrefix : List Char → List Char → Bool
  | [], _ => true
  | _ :: _, [] => false
  | a :: as, b :: bs => a == b && listIsPrefix as bs

/-- Does `pat` occur somewhere in `hay`? -/
def listContainsSub (hay pat : List Char) : Bool :=
  match hay with
  | [] => pat.isEmpty
  | _ :: t => listIsPrefix pat hay || listContainsSub t pat

/-- Case-insensitive substring test: `.ilike(col, "%q%")` with the pattern
built from `query.toLowerCase()` (q nonempty in every use site). -/
def ilikeContains (s q : String) : Bool :=
  listContainsSub (s.data.map lowerChar) (q.data.map lowerChar)

/-- A user row rendered as the JSON the search endpoint selects. -/
def userToJson (u : UserRow) : Json :=
  .jobj [("id", .jstr u.id), ("clerk_id", .jstr u.clerk_id),
         ("name", .jstr u.name), ("created_at", .jnum (u.created_at : Int))]

/-- A post search result rendered as JSON (author joined in). -/
def postToJson (db : Db) (p : PostStatRow) : Json :=
  .jobj [("id", .jstr p.post_id), ("user_id", .jstr p.user_id),
         ("image_url", .jstr p.image_url), ("caption", .jstr p.caption),
         ("created_at", .jnum (p.created_at : Int)),
         ("likes_count", .jnum (p.likes_count : Int)),
         ("comments_count", .jnum (p.comments_count : Int)),
         ("user", match findUserById db p.user_id with
                  | some u => userToJson u
                  | none => .jobj [("id", .jstr p.user_id), ("clerk_id", .jstr ""),
                                   ("name", .jstr "Unknown"), ("created_at", .jstr "")])]

/-- Insert one user row into a list sorted by created_at descending. -/
def insertUserDesc (u : UserRow) : List UserRow → List UserRow
  | [] => [u]
  | q :: qs => if q.created_at ≤ u.created_at then u :: q :: qs else q :: insertUserDesc u qs

/-- `.order("created_at", { ascending: false })` on users. -/
def sortUsersDesc (l : List UserRow) : List UserRow :=
  l.foldr insertUserDesc []

/-- The search response: status, JSON body, and how many backend queries
the handler issued while producing it. -/
structure SearchResult where
  status : Nat
  body : Json
  queriesIssued : Nat
deriving Repr

/-- GET /api/search (src/unnamed/part_018).  `q`/`ty` are the query
parameters after defaulting (`q` defaults to "", `type` to "users"),
`limit`/`offset` the parsed pagination parameters.  The four `...Fails`
flags tell whether the respective backend query errors; the handler only
logs such errors and keeps its local defaults. -/
def searchGET (q ty : String) (limit offset : Int)
    (usersQFails usersCntFails postsQFails postAuthorsQFails postsCntFails : Bool)
    (db : Db) : SearchResult :=
  if jsTrim q = "" then
    { status := 200,
      body := .jobj [("results", .jobj [("users", .jarr []), ("posts", .jarr []),
                                        ("usersTotal", .jnum 0), ("postsTotal", .jnum 0)]),
                     ("query", .jstr ""), ("type", .jstr ty)],
      queriesIssued := 0 }
  else
    let wantUsers := ty = "users" || ty = "all"
    let wantPosts := ty = "posts" || ty = "all"
    let matchedUsers := db.users.filter (fun u => ilikeContains u.name q)
    let users : List Json :=
      if wantUsers && !usersQFails then
        (((sortUsersDesc matchedUsers).drop offset.toNat).take limit.toNat).map userToJson
      else []
    let usersTotal : Int :=
      if wantUsers && !usersCntFails then (matchedUsers.length : Int) else 0
    let matchedPosts := db.post_stats.filter (fun p => ilikeContains p.caption q)
    let postPage := ((sortStatsDesc matchedPosts).drop offset.toNat).take limit.toNat
    let posts : List Json :=
      if wantPosts && !postsQFails && !postPage.isEmpty && !postAuthorsQFails then
        postPage.map (postToJson db)
      else []
    let postsTotal : Int :=
      if wantPosts && !postsCntFails then (matchedPosts.length : Int) else 0
    let usersQueries := if wantUsers then 2 else 0
    let postsQueries :=
      if wantPosts then
        2 + (if !postsQFails && !postPage.isEmpty then 1 else 0)
      else 0
    { status := 200,
      body := .jobj [("results", .jobj [("users", .jarr users), ("posts", .jarr posts),
                                        ("usersTotal", .jnum usersTotal),
                                        ("postsTotal", .jnum postsTotal)]),
                     ("query", .jstr q), ("type", .jstr ty)],
      queriesIssued := usersQueries + postsQueries }

/-! ## Helper lemmas -/

theorem relExists_false_notMem {rows : List RelRow} {pid uid : String}
    (h : relExists rows pid uid = false) : (pid, uid) ∉ rows.map relKey := by
  intro hmem
  rcases List.mem_map.mp hmem with ⟨r, hr, hkey⟩
  have hpid : r.post_id = pid := by
    have h1 := congrArg Prod.fst hkey
    simpa [relKey] using h1
  have huid : r.user_id = uid := by
    have h2 := congrArg Prod.snd hkey
    simpa [relKey] using h2
  have hx : relExists rows pid uid = true := by
    unfold relExists
    exact List.any_eq_true.mpr ⟨r, hr, by simp [hpid, huid]⟩
  rw [h] at hx
  exact Bool.false_ne_true hx

theorem relUnique_append {rows : List RelRow} {pid uid : String}
    (hne : relExists rows pid uid = false) (hu : relUnique rows) :
    relUnique (rows ++ [⟨pid, uid⟩]) := by
  unfold relUnique at hu ⊢
  rw [List.map_append, List.nodup_append]
  refine ⟨hu, by simp, ?_⟩
  intro a ha hb
  have hab : a = (pid, uid) := by simpa [relKey] using hb
  subst hab
  exact relExists_false_notMem hne ha

theorem followExists_false_notMem {rows : List FollowRow} {fer fee : String}
    (h : followExists rows fer fee = false) : (fer, fee) ∉ rows.map followKey := by
  intro hmem
  rcases List.mem_map.mp hmem with ⟨r, hr, hkey⟩
  have hfer : r.follower_id = fer := by
    have h1 := congrArg Prod.fst hkey
    simpa [followKey] using h1
  have hfee : r.following_id = fee := by
    have h2 := congrArg Prod.snd hkey
    simpa [followKey] using h2
  have hx : followExists rows fer fee = true := by
    unfold followExists
    exact List.any_eq_true.mpr ⟨r, hr, by simp [hfer, hfee]⟩
  rw [h] at hx
  exact Bool.false_ne_true hx

theorem followUnique_append {rows : List FollowRow} {fer fee : String}
    (hne : followExists rows fer fee = false) (hu : followUnique rows) :
    followUnique (rows ++ [⟨fer, fee⟩]) := by
  unfold followUnique at hu ⊢
  rw [List.map_append, List.nodup_append]
  refine ⟨hu, by simp, ?_⟩
  intro a ha hb
  have hab : a = (fer, fee) := by simpa [followKey] using hb
  subst hab
  exact followExists_false_notMem hne ha

theorem likesPOST_keeps_relUnique (a b : Option String) (db : Db)
    (hu : relUnique db.likes) : relUnique (likesPOST a b db).2.likes := by
  cases a with
  | none => simpa [likesPOST] using hu
  | some cid =>
    cases b with
    | none => simpa [likesPOST] using hu
    | some pid =>
      cases hfind : findUserByClerkId db cid with
      | none => simpa [likesPOST, hfind] using hu
      | some u =>
        cases hex : relExists db.likes pid u.id with
        | false => simpa [likesPOST, hfind, hex] using relUnique_append hex hu
        | true => simpa [likesPOST, hfind, hex] using hu

theorem bookmarksPOSTLegacy_keeps_relUnique (a b : Option String) (db : Db)
    (hu : relUnique db.bookmarks) :
    relUnique (bookmarksPOSTLegacy a b db).2.bookmarks := by
  cases a with
  | none => simpa [bookmarksPOSTLegacy] using hu
  | some cid =>
    cases b with
    | none => simpa [bookmarksPOSTLegacy] using hu
    | some pid =>
      cases hfind : findUserByClerkId db cid with
      | none => simpa [bookmarksPOSTLegacy, hfind] using hu
      | some u =>
        cases hex : relExists db.bookmarks pid u.id with
        | false => simpa [bookmarksPOSTLegacy, hfind, hex] using relUnique_append hex hu
        | true => simpa [bookmarksPOSTLegacy, hfind, hex] using hu

theorem bookmarksPOSTUpsert_keeps_relUnique (a b : Option String) (db : Db)
    (hu : relUnique db.bookmarks) :
    relUnique (bookmarksPOSTUpsert a b db).2.bookmarks := by
  cases a with
  | none => simpa [bookmarksPOSTUpsert] using hu
  | some cid =>
    cases b with
    | none => simpa [bookmarksPOSTUpsert] using hu
    | some pid =>
      cases hfind : findUserByClerkId db cid with
      | none => simpa [bookmarksPOSTUpsert, hfind] using hu
      | some u =>
        cases hex : relExists db.bookmarks pid u.id with
        | false => simpa [bookmarksPOSTUpsert, hfind, hex] using relUnique_append hex hu
        | true => simpa [bookmarksPOSTUpsert, hfind, hex] using hu

theorem followsPOST_keeps_followUnique (a b : Option String) (db : Db)
    (hu : followUnique db.follows) :
    followUnique (followsPOST a b db).2.follows := by
  cases a with
  | none => simpa [followsPOST] using hu
  | some cid =>
    cases b with
    | none => simpa [followsPOST] using hu
    | some fid =>
      cases hfind : findUserByClerkId db cid with
      | none => simpa [followsPOST, hfind] using hu
      | some u =>
        cases hself : u.id == fid with
        | true => simpa [followsPOST, hfind, hself] using hu
        | false =>
          cases htarget : findUserById db fid with
          | none => simpa [followsPOST, hfind, hself, htarget] using hu
          | some t =>
            cases hex : followExists db.follows u.id fid with
            | false =>
              simpa [followsPOST, hfind, hself, htarget, hex] using
                followUnique_append hex hu
            | true => simpa [followsPOST, hfind, hself, htarget, hex] using hu

/-! ## Concrete fixtures -/

/-- A two-user database in which user u1 already likes, bookmarks post p1
and follows user u2. -/
def dbW : Db :=
  { users := [⟨"u1", "c1", "alice", 0⟩, ⟨"u2", "c2", "bob", 1⟩],
    posts := [],
    post_stats := [],
    comments := [],
    likes := [⟨"p1", "u1"⟩],
    bookmarks := [⟨"p1", "u1"⟩],
    follows := [⟨"u1", "u2"⟩] }

/-! ## Claims -/

/-- Claim C1: a POST to the like/bookmark/follow endpoint by an
authenticated user against an already-existing (actor, target) relation
creates no second row — the check-then-reject endpoints (likes, legacy
bookmarks, follows) return 409 with the database unchanged, the revised
bookmarks endpoint absorbs the request as a 200 no-op — and every one of
the four POST handlers preserves the at-most-one-row-per-pair invariant. -/
theorem C1_duplicate_create_no_second_row
    (db : Db) (cid pid fid : String) (u t : UserRow)
    (hfind : findUserByClerkId db cid = some u)
    (hlike : relExists db.likes pid u.id = true)
    (hbm : relExists db.bookmarks pid u.id = true)
    (hne : u.id ≠ fid)
    (htarget : findUserById db fid = some t)
    (hfol : followExists db.follows u.id fid = true) :
    (likesPOST (some cid) (some pid) db = (409, db)
      ∧ bookmarksPOSTLegacy (some cid) (some pid) db = (409, db)
      ∧ bookmarksPOSTUpsert (some cid) (some pid) db = (200, db)
      ∧ followsPOST (some cid) (some fid) db = (409, db))
    ∧ (∀ (a b : Option String) (db' : Db),
        relUnique db'.likes → relUnique (likesPOST a b db').2.likes)
    ∧ (∀ (a b : Option String) (db' : Db),
        relUnique db'.bookmarks → relUnique (bookmarksPOSTLegacy a b db').2.bookmarks)
    ∧ (∀ (a b : Option String) (db' : Db),
        relUnique db'.bookmarks → relUnique (bookmarksPOSTUpsert a b db').2.bookmarks)
    ∧ (∀ (a b : Option String) (db' : Db),
        followUnique db'.follows → followUnique (followsPOST a b db').2.follows) := by
  refine ⟨⟨?_, ?_, ?_, ?_⟩, likesPOST_keeps_relUnique,
    bookmarksPOSTLegacy_keeps_relUnique, bookmarksPOSTUpsert_keeps_relUnique,
    followsPOST_keeps_followUnique⟩
  · simp [likesPOST, hfind, hlike]
  · simp [bookmarksPOSTLegacy, hfind, hbm]
  · simp [bookmarksPOSTUpsert, hfind, hbm]
  · simp [followsPOST, hfind, htarget, hfol, beq_eq_false_iff_ne.mpr hne]

/-- Witness for C1 at a concrete database: u1 already likes p1 and follows
u2, and the duplicate like POST returns 409 leaving the database intact. -/
theorem C1_duplicate_create_no_second_row_witness :
    findUserByClerkId dbW "c1" = some ⟨"u1", "c1", "alice", 0⟩
    ∧ relExists dbW.likes "p1" "u1" = true
    ∧ relExists dbW.bookmarks "p1" "u1" = true
    ∧ followExists dbW.follows "u1" "u2" = true
    ∧ likesPOST (some "c1") (some "p1") dbW = (409, dbW)
    ∧ followsPOST (some "c1") (some "u2") dbW = (409, dbW) :=
  ⟨by decide, by decide, by decide, by decide,
    (C1_duplicate_create_no_second_row dbW "c1" "p1" "u2"
      ⟨"u1", "c1", "alice", 0⟩ ⟨"u2", "c2", "bob", 1⟩ (by decide) (by decide)
      (by decide) (by decide) (by decide) (by decide)).1.1,
    (C1_duplicate_create_no_second_row dbW "c1" "p1" "u2"
      ⟨"u1", "c1", "alice", 0⟩ ⟨"u2", "c2", "bob", 1⟩ (by decide) (by decide)
      (by decide) (by decide) (by decide) (by decide)).1.2.2.2⟩

theorem assemblePost_stat {db : Db} {ul ub : List String} {p : PostStatRow}
    {fp : FeedPost} (h : assemblePost db ul ub p = some fp) : fp.stat = p := by
  unfold assemblePost at h
  cases hf : findUserById db p.user_id with
  | none => rw [hf] at h; simp at h
  | some u =>
    rw [hf] at h
    simp only [Option.some.injEq] at h
    rw [← h]

theorem assembleAll_map_stat (db : Db) (ul ub : List String) :
    ∀ (rows : List PostStatRow) (out : List FeedPost),
      assembleAll db ul ub rows = some out → out.map FeedPost.stat = rows := by
  intro rows
  induction rows with
  | nil =>
    intro out h
    simp only [assembleAll, Option.some.injEq] at h
    simp [← h]
  | cons p ps ih =>
    intro out h
    simp only [assembleAll] at h
    cases hp : assemblePost db ul ub p with
    | none => rw [hp] at h; simp at h
    | some fp =>
      rw [hp] at h
      cases hr : assembleAll db ul ub ps with
      | none => rw [hr] at h; simp at h
      | some rest =>
        rw [hr] at h
        simp only [Option.some.injEq] at h
        rw [← h]
        simp [assemblePost_stat hp, ih rest hr]

/-- A post_stats row of the 15-post scenario feed (all owned by u1). -/
def scenarioStat (pid : String) (ts : Nat) : PostStatRow :=
  ⟨pid, "u1", "img", "cap", ts, 0, 0⟩

/-- A database holding 15 posts by one user — the claimed feed scenario. -/
def db15 : Db :=
  { users := [⟨"u1", "c1", "alice", 0⟩],
    posts := [],
    post_stats :=
      [scenarioStat "p01" 1, scenarioStat "p02" 2, scenarioStat "p03" 3,
       scenarioStat "p04" 4, scenarioStat "p05" 5, scenarioStat "p06" 6,
       scenarioStat "p07" 7, scenarioStat "p08" 8, scenarioStat "p09" 9,
       scenarioStat "p10" 10, scenarioStat "p11" 11, scenarioStat "p12" 12,
       scenarioStat "p13" 13, scenarioStat "p14" 14, scenarioStat "p15" 15],
    comments := [],
    likes := [],
    bookmarks := [],
    follows := [] }

/-- Claim C2: for valid page/limit parameters the effective limit is
clamped to at most 50, the query offset is (page-1)*limit, the returned
rows are exactly the ordered slice [offset, offset+limit), hasMore equals
offset + limit < total, and the page=1, limit=10, 15-post scenario returns
10 posts with hasMore = true and total = 15. -/
theorem C2_feed_pagination (pageRaw limitRaw : Int)
    (hp : 1 ≤ pageRaw) (hl : 1 ≤ limitRaw)
    (userIdFilter viewer : Option String) (db : Db) :
    effLimit limitRaw ≤ 50
    ∧ feedOffset pageRaw limitRaw = (pageRaw - 1) * effLimit limitRaw
    ∧ (feedGET pageRaw limitRaw userIdFilter viewer false db).pagination.limit
        = effLimit limitRaw
    ∧ ((feedGET pageRaw limitRaw userIdFilter viewer false db).status = 200 →
        (feedGET pageRaw limitRaw userIdFilter viewer false db).posts.map FeedPost.stat
          = feedPageRows pageRaw limitRaw userIdFilter db)
    ∧ ((feedGET pageRaw limitRaw userIdFilter viewer false db).status = 200 →
        (feedGET pageRaw limitRaw userIdFilter viewer false db).pagination.hasMore
          = decide (feedOffset pageRaw limitRaw + effLimit limitRaw
              < ((feedGET pageRaw limitRaw userIdFilter viewer false db).pagination.total : Int)))
    ∧ ((feedGET 1 10 none none false db15).posts.length = 10
        ∧ (feedGET 1 10 none none false db15).pagination.hasMore = true
        ∧ (feedGET 1 10 none none false db15).pagination.total = 15) := by
  have h50 : (1 : Int) ≤ 50 := by norm_num
  have hlc : (1 : Int) ≤ effLimit limitRaw := le_min hl h50
  have hoff : (0 : Int) ≤ feedOffset pageRaw limitRaw := by
    unfold feedOffset
    exact mul_nonneg (by linarith) (by linarith)
  have hsum : ¬(feedOffset pageRaw limitRaw + effLimit limitRaw < (0 : Int)) := by
    push_neg
    linarith
  refine ⟨min_le_right _ _, rfl, ?_, ?_, ?_, by decide, by decide, by decide⟩
  · cases hE : (feedPageRows pageRaw limitRaw userIdFilter db).isEmpty with
    | true => simp [feedGET, hE]
    | false =>
      cases hA : feedAssembled pageRaw limitRaw userIdFilter viewer db with
      | none => simp [feedGET, hE, hA]
      | some assembled => simp [feedGET, hE, hA]
  · cases hE : (feedPageRows pageRaw limitRaw userIdFilter db).isEmpty with
    | true =>
      intro _
      have hnil : feedPageRows pageRaw limitRaw userIdFilter db = [] :=
        List.isEmpty_iff.mp hE
      simp [feedGET, hE, hnil]
    | false =>
      cases hA : feedAssembled pageRaw limitRaw userIdFilter viewer db with
      | none => intro hs; simp [feedGET, hE, hA] at hs
      | some assembled =>
        intro _
        have hmap := assembleAll_map_stat db _ _ _ assembled hA
        simp [feedGET, hE, hA, hmap]
  · cases hE : (feedPageRows pageRaw limitRaw userIdFilter db).isEmpty with
    | true =>
      intro _
      simp [feedGET, hE, hsum]
    | false =>
      cases hA : feedAssembled pageRaw limitRaw userIdFilter viewer db with
      | none => intro hs; simp [feedGET, hE, hA] at hs
      | some assembled =>
        intro _
        simp [feedGET, hE, hA]

/-- Witness for C2 at the concrete scenario: page 1, limit 10, 15 posts. -/
theorem C2_feed_pagination_witness :
    (1 : Int) ≤ 1 ∧ (1 : Int) ≤ 10
    ∧ (feedGET 1 10 none none false db15).posts.length = 10
    ∧ (feedGET 1 10 none none false db15).pagination.hasMore = true
    ∧ (feedGET 1 10 none none false db15).pagination.total = 15 :=
  ⟨by decide, by decide,
    (C2_feed_pagination 1 10 (by decide) (by decide) none none db15).2.2.2.2.2⟩

/-- Claim C9: a failing total-count query never changes the status or the
assembled posts of GET /api/posts (in particular it is never surfaced as a
500); the 200 response then reports total = 0 and hasMore = false. -/
theorem C9_count_failure_degraded (pageRaw limitRaw : Int)
    (hp : 1 ≤ pageRaw) (hl : 0 ≤ limitRaw)
    (userIdFilter viewer : Option String) (db : Db) :
    (feedGET pageRaw limitRaw userIdFilter viewer true db).status
        = (feedGET pageRaw limitRaw userIdFilter viewer false db).status
    ∧ (feedGET pageRaw limitRaw userIdFilter viewer true db).posts
        = (feedGET pageRaw limitRaw userIdFilter viewer false db).posts
    ∧ ((feedGET pageRaw limitRaw userIdFilter viewer true db).status = 200 →
        (feedGET pageRaw limitRaw userIdFilter viewer true db).pagination.total = 0
        ∧ (feedGET pageRaw limitRaw userIdFilter viewer true db).pagination.hasMore = false) := by
  have hlc : (0 : Int) ≤ effLimit limitRaw := le_min hl (by norm_num)
  have hoff : (0 : Int) ≤ feedOffset pageRaw limitRaw := by
    unfold feedOffset
    exact mul_nonneg (by linarith) hlc
  have hsum : ¬(feedOffset pageRaw limitRaw + effLimit limitRaw < (0 : Int)) := by
    push_neg
    linarith
  cases hE : (feedPageRows pageRaw limitRaw userIdFilter db).isEmpty with
  | true => refine ⟨by simp [feedGET, hE], by simp [feedGET, hE], ?_⟩
            intro _
            simp [feedGET, hE]
  | false =>
    cases hA : feedAssembled pageRaw limitRaw userIdFilter viewer db with
    | none =>
      refine ⟨by simp [feedGET, hE, hA], by simp [feedGET, hE, hA], ?_⟩
      intro hs
      simp [feedGET, hE, hA] at hs
    | some assembled =>
      refine ⟨by simp [feedGET, hE, hA], by simp [feedGET, hE, hA], ?_⟩
      intro _
      simp [feedGET, hE, hA, hsum]

/-- Witness for C9: with the count query failing on the 15-post database,
the feed still returns 200 with total 0 and hasMore false. -/
theorem C9_count_failure_degraded_witness :
    (1 : Int) ≤ 1 ∧ (0 : Int) ≤ 10
    ∧ (feedGET 1 10 none none true db15).pagination.total = 0
    ∧ (feedGET 1 10 none none true db15).pagination.hasMore = false :=
  ⟨by decide, by decide,
    (C9_count_failure_degraded 1 10 (by decide) (by decide) none none db15).2.2
      (by decide)⟩

/-- Claim C3 counterexample: the follow toggler treats a 409 response as a
failure — it rolls the optimistic flip back and raises an alert instead of
reconciling it — and the like toggler does not flip optimistically: its
local state at the moment the request is issued is still the initial one. -/
theorem C3_counterexample :
    followClick false false ⟨false, 5⟩ 409
      = { fetched := true, stateAtFetch := ⟨true, 6⟩,
          finalState := ⟨false, 5⟩, alerted := true }
    ∧ (likeClick false ⟨false, 5⟩ 200).stateAtFetch = ⟨false, 5⟩ := by
  decide

/-- Claim C3 amended: every toggle handler ignores clicks while a request
is pending (loading guard) and alerts on unrecognized non-success
responses, but the policies differ per handler: only the follow handler is
optimistic (flip before the call, rollback on every non-ok response —
including 409, which it treats as a failure with rollback and alert); the
like handler keeps the local state unchanged until the response, reconciles
409 without failure, flips on 2xx and alerts otherwise; the bookmark
handler keeps the state unchanged until a 2xx and treats every non-ok
response, 409 included, as an alert-level failure. -/
theorem C3_toggle_policies (s : ToggleState) (resp : Nat) :
    (∀ own : Bool, followClick true own s resp = ⟨false, s, s, false⟩)
    ∧ likeClick true s resp = ⟨false, s, s, false⟩
    ∧ bookmarkClick true s resp = ⟨false, s, s, false⟩
    ∧ (followClick false false s resp).stateAtFetch = flipToggle s
    ∧ (respOk resp = true →
        followClick false false s resp = ⟨true, flipToggle s, flipToggle s, false⟩)
    ∧ (respOk resp = false →
        followClick false false s resp = ⟨true, flipToggle s, s, true⟩)
    ∧ (likeClick false s resp).stateAtFetch = s
    ∧ (resp = 409 →
        (likeClick false s resp).alerted = false
        ∧ (likeClick false s resp).finalState.flag = true)
    ∧ (resp ≠ 409 → respOk resp = true →
        likeClick false s resp = ⟨true, s, flipToggle s, false⟩)
    ∧ (resp ≠ 409 → respOk resp = false →
        likeClick false s resp = ⟨true, s, s, true⟩)
    ∧ (respOk resp = true →
        bookmarkClick false s resp = ⟨true, s, ⟨!s.flag, s.count⟩, false⟩)
    ∧ (respOk resp = false →
        bookmarkClick false s resp = ⟨true, s, s, true⟩) := by
  refine ⟨fun own => by simp [followClick], by simp [likeClick],
    by simp [bookmarkClick], ?_, ?_, ?_, ?_, ?_, ?_, ?_, ?_, ?_⟩
  · cases hok : respOk resp with
    | true => simp [followClick, hok]
    | false => simp [followClick, hok]
  · intro hok
    simp [followClick, hok]
  · intro hok
    simp [followClick, hok]
  · by_cases h409 : resp = 409
    · by_cases hflag : s.flag = true
      · simp [likeClick, h409, hflag]
      · simp [likeClick, h409, hflag]
    · cases hok : respOk resp with
      | true => simp [likeClick, h409, hok]
      | false => simp [likeClick, h409, hok]
  · intro h409
    by_cases hflag : s.flag = true
    · simp [likeClick, h409, hflag]
    · simp [likeClick, h409, hflag]
  · intro h409 hok
    simp [likeClick, h409, hok]
  · intro h409 hok
    simp [likeClick, h409, hok]
  · intro hok
    simp [bookmarkClick, hok]
  · intro hok
    simp [bookmarkClick, hok]

/-- Witness for the amended C3 at concrete states and responses. -/
theorem C3_toggle_policies_witness :
    respOk 500 = false
    ∧ followClick false false ⟨true, 3⟩ 500
        = ⟨true, flipToggle ⟨true, 3⟩, ⟨true, 3⟩, true⟩
    ∧ (likeClick false ⟨false, 0⟩ 409).alerted = false :=
  ⟨by decide,
    (C3_toggle_policies ⟨true, 3⟩ 500).2.2.2.2.2.1 (by decide),
    ((C3_toggle_policies ⟨false, 0⟩ 409).2.2.2.2.2.2.2.1 (by decide)).1⟩

/-- The empty database. -/
def dbEmpty : Db :=
  { users := [], posts := [], post_stats := [], comments := [], likes := [],
    bookmarks := [], follows := [] }

/-- A one-user database for the search fixtures. -/
def dbSearch : Db :=
  { users := [⟨"u1", "c1", "alice", 0⟩], posts := [], post_stats := [],
    comments := [], likes := [], bookmarks := [], follows := [] }

/-- Claim C4 counterexample: at q = "" the endpoint issues no backend
query, but the body it returns is the full results envelope, not the
two-field object {users: [], total: 0} the claim states. -/
theorem C4_counterexample :
    (searchGET "" "users" 20 0 false false false false false dbEmpty).queriesIssued = 0
    ∧ (searchGET "" "users" 20 0 false false false false false dbEmpty).body
        ≠ Json.jobj [("users", Json.jarr []), ("total", Json.jnum 0)] :=
  ⟨by decide, fun h => absurd (congrArg jsonKeys h) (by decide)⟩

/-- Claim C4 amended: a q that is empty or whitespace-only short-circuits
without issuing any backend query, returning 200 with the body
{results: {users: [], posts: [], usersTotal: 0, postsTotal: 0},
query: "", type}. -/
theorem C4_empty_query_shortcircuit (q ty : String) (limit offset : Int)
    (f1 f2 f3 f4 f5 : Bool) (db : Db) (h : jsTrim q = "") :
    searchGET q ty limit offset f1 f2 f3 f4 f5 db =
      { status := 200,
        body := .jobj [("results",
                        .jobj [("users", .jarr []), ("posts", .jarr []),
                               ("usersTotal", .jnum 0), ("postsTotal", .jnum 0)]),
                       ("query", .jstr ""), ("type", .jstr ty)],
        queriesIssued := 0 } := by
  unfold searchGET
  rw [if_pos h]

/-- Witness for the amended C4 at a whitespace-only query. -/
theorem C4_empty_query_shortcircuit_witness :
    jsTrim "   " = ""
    ∧ (searchGET "   " "users" 20 0 false false false false false dbEmpty).queriesIssued = 0 := by
  refine ⟨by decide, ?_⟩
  rw [C4_empty_query_shortcircuit "   " "users" 20 0 false false false false
    false dbEmpty (by decide)]

/-- Claim C10 counterexample: with the users-search data query failing but
the independent count query succeeding, the endpoint answers 200 with an
empty users array yet a non-zero usersTotal — not the zero total the claim
states. -/
theorem C10_counterexample :
    (searchGET "a" "users" 20 0 true false false false false dbSearch).status = 200
    ∧ resultsField (searchGET "a" "users" 20 0 true false false false false dbSearch).body
        "users" = some (Json.jarr [])
    ∧ resultsField (searchGET "a" "users" 20 0 true false false false false dbSearch).body
        "usersTotal" = some (Json.jnum 1) :=
  ⟨rfl, rfl, rfl⟩

/-- Claim C10 amended: for a non-empty query the endpoint always answers
200 (a 500 arises only from a thrown exception, outside this model); when
the users-search data query fails with type=users the users array is empty
and the reported usersTotal comes from the separate count query — it is
zero exactly when that count query also fails; symmetrically for the
posts-search query with type=posts. -/
theorem C10_search_failure_logged_not_500 (q ty : String) (limit offset : Int)
    (uqf ucf pqf paf pcf : Bool) (db : Db) (hq : jsTrim q ≠ "") :
    (searchGET q ty limit offset uqf ucf pqf paf pcf db).status = 200
    ∧ resultsField (searchGET q "users" limit offset true ucf pqf paf pcf db).body
        "users" = some (Json.jarr [])
    ∧ resultsField (searchGET q "users" limit offset true ucf pqf paf pcf db).body
        "usersTotal" = some (Json.jnum (if ucf then 0 else
          ((db.users.filter (fun u => ilikeContains u.name q)).length : Int)))
    ∧ resultsField (searchGET q "posts" limit offset uqf ucf true paf pcf db).body
        "posts" = some (Json.jarr [])
    ∧ resultsField (searchGET q "posts" limit offset uqf ucf true paf pcf db).body
        "postsTotal" = some (Json.jnum (if pcf then 0 else
          ((db.post_stats.filter (fun p => ilikeContains p.caption q)).length : Int))) := by
  refine ⟨?_, ?_, ?_, ?_, ?_⟩
  · unfold searchGET
    split <;> rfl
  · unfold searchGET
    rw [if_neg hq]
    rfl
  · unfold searchGET
    rw [if_neg hq]
    cases ucf <;> rfl
  · unfold searchGET
    rw [if_neg hq]
    rfl
  · unfold searchGET
    rw [if_neg hq]
    cases pcf <;> rfl

/-- Witness for the amended C10: failing users-search query on a concrete
database, with the count query succeeding. -/
theorem C10_search_failure_logged_not_500_witness :
    jsTrim "a" ≠ ""
    ∧ (searchGET "a" "users" 20 0 true false false false false dbSearch).status = 200
    ∧ resultsField (searchGET "a" "users" 20 0 true false false false false dbSearch).body
        "users" = some (Json.jarr []) :=
  ⟨by decide,
    (C10_search_failure_logged_not_500 "a" "users" 20 0 true false false false
      false dbSearch (by decide)).1,
    (C10_search_failure_logged_not_500 "a" "users" 20 0 true false false false
      false dbSearch (by decide)).2.1⟩

/-- Claim C5: POST /api/follows by an authenticated caller returns 400 on
self-follow, 404 when the target user row is missing, 409 without insert
when the follow row already exists, and otherwise inserts exactly one
follow row and returns 201. -/
theorem C5_follows_post_cases (db : Db) (cid fid : String) (u : UserRow)
    (hfind : findUserByClerkId db cid = some u) :
    (fid = u.id → followsPOST (some cid) (some fid) db = (400, db))
    ∧ (fid ≠ u.id → findUserById db fid = none →
        followsPOST (some cid) (some fid) db = (404, db))
    ∧ (∀ t : UserRow, fid ≠ u.id → findUserById db fid = some t →
        followExists db.follows u.id fid = true →
        followsPOST (some cid) (some fid) db = (409, db))
    ∧ (∀ t : UserRow, fid ≠ u.id → findUserById db fid = some t →
        followExists db.follows u.id fid = false →
        followsPOST (some cid) (some fid) db
          = (201, { db with follows := db.follows ++ [⟨u.id, fid⟩] })) := by
  refine ⟨?_, ?_, ?_, ?_⟩
  · intro heq
    simp [followsPOST, hfind, heq]
  · intro hne hnone
    simp [followsPOST, hfind, hnone, beq_eq_false_iff_ne.mpr (Ne.symm hne)]
  · intro t hne hsome hex
    simp [followsPOST, hfind, hsome, hex, beq_eq_false_iff_ne.mpr (Ne.symm hne)]
  · intro t hne hsome hex
    simp [followsPOST, hfind, hsome, hex, beq_eq_false_iff_ne.mpr (Ne.symm hne)]

/-- Witness for C5 on the concrete two-user database dbW: self-follow 400,
unknown target 404, duplicate 409, and a fresh follow 201 with one row
appended. -/
theorem C5_follows_post_cases_witness :
    findUserByClerkId dbW "c1" = some ⟨"u1", "c1", "alice", 0⟩
    ∧ followsPOST (some "c1") (some "u1") dbW = (400, dbW)
    ∧ followsPOST (some "c1") (some "zz") dbW = (404, dbW)
    ∧ followsPOST (some "c1") (some "u2") dbW = (409, dbW)
    ∧ followsPOST (some "c2") (some "u1") dbW
        = (201, { dbW with follows := dbW.follows ++ [⟨"u2", "u1"⟩] }) :=
  ⟨by decide,
    (C5_follows_post_cases dbW "c1" "u1" ⟨"u1", "c1", "alice", 0⟩ (by decide)).1
      (by decide),
    (C5_follows_post_cases dbW "c1" "zz" ⟨"u1", "c1", "alice", 0⟩ (by decide)).2.1
      (by decide) (by decide),
    (C5_follows_post_cases dbW "c1" "u2" ⟨"u1", "c1", "alice", 0⟩ (by decide)).2.2.1
      ⟨"u2", "c2", "bob", 1⟩ (by decide) (by decide) (by decide),
    (C5_follows_post_cases dbW "c2" "u1" ⟨"u2", "c2", "bob", 1⟩ (by decide)).2.2.2
      ⟨"u1", "c1", "alice", 0⟩ (by decide) (by decide) (by decide)⟩

/-- Claim C6 counterexample: a 100-byte upload with MIME type image/jpg is
accepted (status 200 and an object written to storage) although image/jpg
is not in the allow-list the claim states. -/
theorem C6_counterexample :
    (postsPOST (some "c1") (some ⟨"a.jpg", 100, "image/jpg"⟩) "" 1 "r"
        false false [] dbW).status = 200
    ∧ (postsPOST (some "c1") (some ⟨"a.jpg", 100, "image/jpg"⟩) "" 1 "r"
        false false [] dbW).storage = ["c1/1-r.jpg"]
    ∧ "image/jpg" ∉ (["image/jpeg", "image/png", "image/webp", "image/gif"] : List String) := by
  refine ⟨by decide, by decide, by decide⟩

/-- Claim C6 amended: an image larger than 5MB, or whose MIME type is not
in the code's allow-list {image/jpeg, image/jpg, image/png, image/webp,
image/gif}, is rejected with 400, and neither storage nor the posts table
is touched. -/
theorem C6_invalid_image_rejected (cid : String) (f : ImageFile)
    (caption : String) (ts : Nat) (rs : String) (upf inf : Bool)
    (storage : List String) (db : Db)
    (h : 5 * 1024 * 1024 < f.size ∨ f.mime ∉ allowedTypes) :
    postsPOST (some cid) (some f) caption ts rs upf inf storage db
      = ⟨400, storage, db.posts⟩ := by
  by_cases hs : 5 * 1024 * 1024 < f.size
  · simp [postsPOST, hs]
  · have hm : f.mime ∉ allowedTypes := h.resolve_left hs
    simp [postsPOST, hs, hm]

/-- Witness for the amended C6: a text/plain upload is rejected with 400
and nothing is written. -/
theorem C6_invalid_image_rejected_witness :
    (5 * 1024 * 1024 < 100 ∨ "text/plain" ∉ allowedTypes)
    ∧ postsPOST (some "c1") (some ⟨"a.txt", 100, "text/plain"⟩) "" 1 "r"
        false false [] dbW = ⟨400, [], dbW.posts⟩ :=
  ⟨Or.inr (by decide),
    C6_invalid_image_rejected "c1" ⟨"a.txt", 100, "text/plain"⟩ "" 1 "r"
      false false [] dbW (Or.inr (by decide))⟩

/-- Claim C7: when every validation passes and the storage upload succeeds
but the posts insert fails, the uploaded object is removed again and the
500 response leaves both storage and the posts table exactly as before —
in particular the upload path is not left behind as an orphan. -/
theorem C7_insert_failure_compensated (cid : String) (f : ImageFile)
    (caption : String) (ts : Nat) (rs : String) (storage : List String)
    (db : Db) (u : UserRow)
    (hs : f.size ≤ 5 * 1024 * 1024) (hm : f.mime ∈ allowedTypes)
    (hcap : caption.length ≤ 2200)
    (hfind : findUserByClerkId db cid = some u)
    (hfree : uploadPath cid ts rs f.name ∉ storage) :
    postsPOST (some cid) (some f) caption ts rs false true storage db
      = ⟨500, storage, db.posts⟩
    ∧ uploadPath cid ts rs f.name
        ∉ (postsPOST (some cid) (some f) caption ts rs false true storage db).storage := by
  have hs2 : ¬(5 * 1024 * 1024 < f.size) := not_lt.mpr hs
  have hcap2 : ¬(2200 < caption.length) := not_lt.mpr hcap
  have hfilter : (storage ++ [uploadPath cid ts rs f.name]).filter
      (fun p => !(p == uploadPath cid ts rs f.name)) = storage := by
    rw [List.filter_append]
    have h1 : storage.filter (fun p => !(p == uploadPath cid ts rs f.name)) = storage := by
      rw [List.filter_eq_self]
      intro a ha
      have hane : a ≠ uploadPath cid ts rs f.name := by
        intro heq
        exact hfree (heq ▸ ha)
      simp [hane]
    have h2 : ([uploadPath cid ts rs f.name]).filter
        (fun p => !(p == uploadPath cid ts rs f.name)) = [] := by
      simp
    rw [h1, h2, List.append_nil]
  constructor
  · simp [postsPOST, hs2, hcap2, hm, hfind, hfree, hfilter]
  · simp [postsPOST, hs2, hcap2, hm, hfind, hfree, hfilter]

/-- Witness for C7: concrete failing insert after a successful upload. -/
theorem C7_insert_failure_compensated_witness :
    (10 ≤ 5 * 1024 * 1024 ∧ "image/png" ∈ allowedTypes
      ∧ findUserByClerkId dbW "c1" = some ⟨"u1", "c1", "alice", 0⟩
      ∧ uploadPath "c1" 1 "r" "a.png" ∉ ([] : List String))
    ∧ postsPOST (some "c1") (some ⟨"a.png", 10, "image/png"⟩) "" 1 "r"
        false true [] dbW = ⟨500, [], dbW.posts⟩ :=
  ⟨⟨by decide, by decide, by decide, by decide⟩,
    (C7_insert_failure_compensated "c1" ⟨"a.png", 10, "image/png"⟩ "" 1 "r"
      [] dbW ⟨"u1", "c1", "alice", 0⟩ (by decide) (by decide) (by decide)
      (by decide) (by decide)).1⟩

/-- A database whose only post and only comment belong to user u2, so that
u1 is an authenticated non-owner. -/
def dbOwn : Db :=
  { users := [⟨"u1", "c1", "alice", 0⟩, ⟨"u2", "c2", "bob", 1⟩],
    posts := [⟨"p1", "u2", "https://x.supabase.co/storage/v1/object/public/uploads/u2/a.jpg"⟩],
    post_stats := [],
    comments := [⟨"cm1", "p1", "u2", "hello", 5⟩],
    likes := [], bookmarks := [], follows := [] }

/-- Claim C8: deleting a post or comment as an authenticated caller who is
not its owner/author yields 403 and leaves storage and every table
untouched. -/
theorem C8_delete_requires_ownership :
    (∀ (db : Db) (storage : List String) (cid pid : String) (u : UserRow)
        (post : PostRow),
      findUserByClerkId db cid = some u →
      db.posts.find? (fun p => p.id == pid) = some post →
      post.user_id ≠ u.id →
      postDELETE (some cid) pid storage db = ⟨403, storage, db⟩)
    ∧ (∀ (db : Db) (cid cmid : String) (u : UserRow) (c : CommentRow),
      findUserByClerkId db cid = some u →
      db.comments.find? (fun x => x.id == cmid) = some c →
      c.user_id ≠ u.id →
      commentsDELETE (some cid) (some cmid) db = (403, db)) := by
  constructor
  · intro db storage cid pid u post hfind hpost hne
    simp [postDELETE, hfind, hpost, bne_iff_ne.mpr hne]
  · intro db cid cmid u c hfind hcomment hne
    simp [commentsDELETE, hfind, hcomment, bne_iff_ne.mpr hne]

/-- Witness for C8: u1 attempts to delete u2's post and u2's comment, both
rejected with 403 and no change. -/
theorem C8_delete_requires_ownership_witness :
    findUserByClerkId dbOwn "c1" = some ⟨"u1", "c1", "alice", 0⟩
    ∧ postDELETE (some "c1") "p1" ["u2/a.jpg"] dbOwn = ⟨403, ["u2/a.jpg"], dbOwn⟩
    ∧ commentsDELETE (some "c1") (some "cm1") dbOwn = (403, dbOwn) :=
  ⟨by decide,
    C8_delete_requires_ownership.1 dbOwn ["u2/a.jpg"] "c1" "p1"
      ⟨"u1", "c1", "alice", 0⟩
      ⟨"p1", "u2", "https://x.supabase.co/storage/v1/object/public/uploads/u2/a.jpg"⟩
      (by decide) (by decide) (by decide),
    C8_delete_requires_ownership.2 dbOwn "c1" "cm1" ⟨"u1", "c1", "alice", 0⟩
      ⟨"cm1", "p1", "u2", "hello", 5⟩ (by decide) (by decide) (by decide)⟩

end MyInstagram
